import Mathlib

/-!
Verification of the PyLoxone climate / sensor / text-status platforms
(`custom_components/loxone/climate.py`, `sensor.py`, `text_status.py`).

The Python code is shallowly embedded: raw channel values are an inductive
`PyVal` (Python scalars, lists and string-keyed dicts), Python truthiness,
`==`, `int()`, `float()` and f-string formatting are modelled explicitly,
and each method of the two climate entities and the two icon decoders is
translated into a pure Lean function over an explicit device state.
-/

/-- A raw Python value as it occurs in the event stream and the per-device
value cache: `None`, booleans, ints, floats (modelled as rationals, since
the code only parses, stores and compares them and never does float
arithmetic), strings, lists and string-keyed dicts. -/
inductive PyVal where
  | none : PyVal
  | b : Bool → PyVal
  | i : Int → PyVal
  | f : ℚ → PyVal
  | s : String → PyVal
  | list : List PyVal → PyVal
  | dict : List (String × PyVal) → PyVal

/-- Numeric view of a Python value: booleans count as 0/1, ints and floats
as their rational value; everything else is non-numeric. Used to model
Python `==` across the numeric tower. -/
def qOf : PyVal → Option ℚ
  | .b true => some 1
  | .b false => some 0
  | .i n => some (n : ℚ)
  | .f q => some q
  | _ => none

mutual
/-- Model of Python `==` on the values exercised by this code: numbers
(bool/int/float) compare by numeric value, strings by content, `None` only
to `None`, lists and dicts elementwise; mixed non-numeric kinds are unequal. -/
def pyEq : PyVal → PyVal → Bool
  | .s a, .s b => a == b
  | .none, .none => true
  | .list a, .list b => pyEqList a b
  | .dict a, .dict b => pyEqDict a b
  | x, y =>
    match qOf x, qOf y with
    | some a, some b => a == b
    | _, _ => false

/-- Elementwise Python `==` on lists. -/
def pyEqList : List PyVal → List PyVal → Bool
  | [], [] => true
  | x :: xs, y :: ys => pyEq x y && pyEqList xs ys
  | _, _ => false

/-- Entrywise Python `==` on string-keyed dicts (entry order respected;
no claim compares dicts). -/
def pyEqDict : List (String × PyVal) → List (String × PyVal) → Bool
  | [], [] => true
  | (k, x) :: xs, (l, y) :: ys => k == l && pyEq x y && pyEqDict xs ys
  | _, _ => false
end

/-- Python truthiness: `None`, `False`, numeric zero, the empty string and
empty containers are falsy, everything else truthy (a normalized rational
is zero iff its numerator is). -/
def pyTruthy : PyVal → Bool
  | .none => false
  | .b v => v
  | .i n => n != 0
  | .f q => q.num != 0
  | .s t => t != ""
  | .list l => !l.isEmpty
  | .dict d => !d.isEmpty

/-- Python `x in tup` membership test (via `pyEq`). -/
def pyIn (x : PyVal) (tup : List PyVal) : Bool :=
  tup.any (fun e => pyEq x e)

/-- Digits of a char list read as a natural number. -/
def digitsToNat (cs : List Char) : Nat :=
  cs.foldl (fun a c => 10 * a + (c.toNat - 48)) 0

/-- Splits an optional leading `+`/`-` sign off a char list, returning
`true` for negative. -/
def splitSign : List Char → Bool × List Char
  | '-' :: rest => (true, rest)
  | '+' :: rest => (false, rest)
  | cs => (false, cs)

/-- ASCII whitespace as stripped by Python's `str.strip()`. -/
def pyWsChar (c : Char) : Bool :=
  c = ' ' || c = Char.ofNat 9 || c = Char.ofNat 10 ||
    c = Char.ofNat 13 || c = Char.ofNat 11 || c = Char.ofNat 12

/-- Strips leading and trailing whitespace from a char list. -/
def trimChars (cs : List Char) : List Char :=
  ((cs.dropWhile pyWsChar).reverse.dropWhile pyWsChar).reverse

/-- Model of Python `float(str)` on plain decimal literals: optional sign,
digits with an optional fractional part (`21.5`, `.5`, `5.`, `19`);
whitespace is stripped; anything else fails (raises in Python). Exponents,
`inf` and `nan` do not occur in this code's inputs and are not modelled. -/
def parseDecimal (t : String) : Option ℚ :=
  let (neg, cs) := splitSign (trimChars t.toList)
  let ip := cs.takeWhile Char.isDigit
  let rest := cs.dropWhile Char.isDigit
  let base : Option (Int × Nat) :=
    match rest with
    | [] => if ip.isEmpty then Option.none else some ((digitsToNat ip : Int), 1)
    | '.' :: rest2 =>
      let fp := rest2.takeWhile Char.isDigit
      if (rest2.dropWhile Char.isDigit).isEmpty then
        if ip.isEmpty && fp.isEmpty then Option.none
        else some ((digitsToNat ip * 10 ^ fp.length + digitsToNat fp : Int), 10 ^ fp.length)
      else Option.none
    | _ => Option.none
  base.map (fun p => mkRat (if neg then -p.1 else p.1) p.2)

/-- Model of Python `int(str)` on plain integer literals: optional sign and
digits, whitespace stripped; anything else fails (raises in Python). -/
def parseIntStr (t : String) : Option Int :=
  let (neg, cs) := splitSign (trimChars t.toList)
  if cs.isEmpty || !cs.all Char.isDigit then none
  else some (if neg then -(digitsToNat cs : Int) else (digitsToNat cs : Int))

/-- Model of Python `float(x)`: numbers convert to their rational value,
strings are parsed as decimal literals; `None`, lists and dicts fail
(raise `TypeError`/`ValueError` in Python). -/
def pyFloat : PyVal → Option ℚ
  | .b true => some 1
  | .b false => some 0
  | .i n => some (n : ℚ)
  | .f q => some q
  | .s t => parseDecimal t
  | _ => none

/-- Model of Python `int(x)`: booleans/ints convert exactly, floats
truncate toward zero, strings are parsed as integer literals; `None`,
lists and dicts fail (raise in Python). -/
def pyInt : PyVal → Option Int
  | .b true => some 1
  | .b false => some 0
  | .i n => some n
  | .f q =>
    some (if 0 ≤ q.num then (Int.ofNat (q.num.natAbs / q.den))
          else -(Int.ofNat (q.num.natAbs / q.den)))
  | .s t => parseIntStr t
  | _ => none

/-- Decimal digits of the proper fraction `rem / den` (`rem < den`),
long-division style, up to the given fuel; terminates exactly for
denominators dividing a power of 10, which is every value arising from
this code's decimal inputs. -/
def natFracDigits (den : Nat) : Nat → Nat → String
  | 0, _ => ""
  | fuel + 1, rem =>
    let r10 := rem * 10
    let d := r10 / den
    let rem2 := r10 % den
    if rem2 = 0 then toString d
    else toString d ++ natFracDigits den fuel rem2

/-- Model of Python `str()` / f-string interpolation of a float value
(`21.5`, `19.0`), written over the numerator/denominator of the
normalized rational. -/
def pyFloatRepr (q : ℚ) : String :=
  let sgn := if q.num < 0 then "-" else ""
  let n := q.num.natAbs
  if n % q.den = 0 then sgn ++ toString (n / q.den) ++ ".0"
  else sgn ++ toString (n / q.den) ++ "." ++ natFracDigits q.den 31 (n % q.den)

mutual
/-- Model of Python `str()` / f-string interpolation on the values this
code formats (ints, floats, strings, booleans, `None`; containers render
repr-style). -/
def pyStr : PyVal → String
  | .none => "None"
  | .b true => "True"
  | .b false => "False"
  | .i n => toString n
  | .f q => pyFloatRepr q
  | .s t => t
  | .list l => "[" ++ ", ".intercalate (pyStrList l) ++ "]"
  | .dict _ => "dict"

/-- Renders list elements for `pyStr`. -/
def pyStrList : List PyVal → List String
  | [] => []
  | x :: xs => pyStr x :: pyStrList xs
end

/-- First element satisfying `f` (used to model Python dict lookup and
tuple scans; written by explicit recursion so its equations rewrite
cleanly). -/
def findFirst {α : Type} (f : α → Bool) : List α → Option α
  | [] => Option.none
  | x :: xs => if f x then some x else findFirst f xs

/-- Assoc-list lookup modelling Python `dict.get` with string keys. -/
def dictGet (d : List (String × PyVal)) (k : String) : Option PyVal :=
  (findFirst (fun p => p.1 == k) d).map Prod.snd

/-- Assoc-list store modelling Python `dict[k] = v` (overwrite or append). -/
def dictSet (d : List (String × PyVal)) (k : String) (v : PyVal) : List (String × PyVal) :=
  if (findFirst (fun p => p.1 == k) d).isSome then
    d.map (fun p => if p.1 == k then (k, v) else p)
  else d ++ [(k, v)]

/-- Home Assistant HVAC modes occurring in `climate.py` (plus `dry` and
`fan_only`, which exist in the host framework but are unsupported here). -/
inductive HVACMode where
  | off | heat | cool | heat_cool | auto | dry | fan_only
deriving DecidableEq

/-- Home Assistant HVAC actions occurring in `climate.py`. -/
inductive HVACAction where
  | heating | cooling | idle
deriving DecidableEq

/-- A log record emitted via `_LOGGER`: level and (schematic) message. -/
inductive LogEntry where
  | debug : String → LogEntry
  | warning : String → LogEntry
  | error : String → LogEntry
deriving DecidableEq

/-- The mutable state of one climate entity: `_stateAttribUuids`
(logical state name → channel uuid, from the config's `states`),
`_stateAttribValues` (channel uuid → last-seen raw value) and, for the
room controller, `_autoMode` (`CONF_HVAC_AUTO_MODE`). -/
structure ClimateState where
  stateAttribUuids : List (String × String)
  stateAttribValues : List (String × PyVal)
  autoMode : Int

/-- Builds a climate state whose uuid map sends each name `n` to channel
`"u-" ++ n` and whose cache holds the given values under those channels. -/
def stateOf (pairs : List (String × PyVal)) (am : Int) : ClimateState :=
  ⟨pairs.map (fun p => (p.1, "u-" ++ p.1)),
   pairs.map (fun p => ("u-" ++ p.1, p.2)), am⟩

/-- `get_state_value` (identical in `LoxoneRoomControllerV2` and
`LoxoneAcControl`): look the name up in `_stateAttribUuids`; a missing or
falsy (empty) uuid yields `None`; otherwise return the cached value for
that uuid, `None` when absent. -/
def get_state_value (st : ClimateState) (name : String) : PyVal :=
  match (findFirst (fun p => p.1 == name) st.stateAttribUuids).map Prod.snd with
  | Option.none => .none
  | some uuid =>
    if uuid == "" then .none
    else (dictGet st.stateAttribValues uuid).getD .none

/-- `event_handler` (identical in `LoxoneRoomControllerV2` and
`LoxoneAcControl`): if the uuid map is empty or the event payload is not a
dict, do nothing; otherwise store the payload's value for every uuid in
`set(_stateAttribUuids.values()) & event.data.keys()` and schedule exactly
one update notification iff that intersection is non-empty. Returns the
new `_stateAttribValues` and whether an update was scheduled. -/
def event_handler (st : ClimateState) (data : PyVal) :
    List (String × PyVal) × Bool :=
  match data with
  | .dict entries =>
    if st.stateAttribUuids.isEmpty then (st.stateAttribValues, false)
    else
      let rel := ((st.stateAttribUuids.map Prod.snd).dedup).filter
        (fun u => (dictGet entries u).isSome)
      (rel.foldl (fun c u => dictSet c u ((dictGet entries u).getD .none))
        st.stateAttribValues,
       !rel.isEmpty)
  | _ => (st.stateAttribValues, false)

/-- `OPMODES`: Loxone operating-mode code → Home Assistant mode. -/
def OPMODES : List (Int × HVACMode) :=
  [(-1, .off), (0, .auto), (1, .auto), (2, .auto),
   (3, .heat_cool), (4, .heat), (5, .cool)]

/-- `OPMODETOLOXONE`: Home Assistant mode → Loxone operating-mode code. -/
def OPMODETOLOXONE : List (HVACMode × Int) :=
  [(.auto, 0), (.heat_cool, 3), (.heat, 4), (.cool, 5), (.off, -1)]

/-- Python `OPMODES.get(op, HVACMode.OFF)`: dict lookup with `==` on the
int keys (so `1.0` or `True` also hit key `1`), defaulting to `OFF`. -/
def opmodesGet (op : PyVal) : HVACMode :=
  ((findFirst (fun p => pyEq (.i p.1) op) OPMODES).map Prod.snd).getD .off

namespace LoxoneRoomControllerV2

/-- `LoxoneRoomControllerV2.hvac_mode`: map the cached `operatingMode`
through `OPMODES`, defaulting to `OFF`. -/
def hvac_mode (st : ClimateState) : HVACMode :=
  opmodesGet (get_state_value st "operatingMode")

/-- `LoxoneRoomControllerV2.target_temperature`: parse `tempTarget` as a
float when present, falling back (also on a parse failure, which Python
catches) to `manualTemperature`, else `None`. Total: never raises. -/
def target_temperature (st : ClimateState) : Option ℚ :=
  let val := get_state_value st "tempTarget"
  let first : Option ℚ :=
    match val with
    | .none => Option.none
    | v => pyFloat v
  match first with
  | some q => some q
  | Option.none =>
    let manual := get_state_value st "manualTemperature"
    match manual with
    | .none => Option.none
    | m => pyFloat m

/-- `LoxoneRoomControllerV2.set_temperature`: the temperature is
`kwargs.get("temperature") or kwargs.get("target_temp")` (Python `or`:
the first operand if truthy, else the second); `None` means log a debug
line and emit nothing. Otherwise, if the cached `operatingMode` is `None`
or `int(op) <= 2`, first emit `setOperatingMode/4`, then in all cases emit
`setManualTemperature/<temp>`; an `int()` failure is caught by the outer
`except` (logged, nothing emitted). Returns (commands, log entries). -/
def set_temperature (st : ClimateState) (temperature target_temp : PyVal) :
    List String × List LogEntry :=
  let temp := if pyTruthy temperature then temperature else target_temp
  match temp with
  | .none => ([], [.debug "set_temperature called without temperature"])
  | t =>
    let payload_temp := "setManualTemperature/" ++ pyStr t
    match get_state_value st "operatingMode" with
    | .none =>
      (["setOperatingMode/4", payload_temp],
       [.debug "switched from AUTO to manual HEAT mode",
        .debug ("set_temperature fired " ++ payload_temp)])
    | op =>
      match pyInt op with
      | Option.none => ([], [.error "error in set_temperature"])
      | some n =>
        if n ≤ 2 then
          (["setOperatingMode/4", payload_temp],
           [.debug "switched from AUTO to manual HEAT mode",
            .debug ("set_temperature fired " ++ payload_temp)])
        else ([payload_temp], [.debug ("set_temperature fired " ++ payload_temp)])

/-- The FIRST `set_hvac_mode` definition in the class body (dead code: the
second definition below silently overrides it): always takes the mode code
from `OPMODETOLOXONE` and logs a warning on an unsupported mode. -/
def set_hvac_mode_shadowed (st : ClimateState) (hvac_mode : HVACMode) :
    List String × List LogEntry :=
  let _ := st
  match (findFirst (fun p => p.1 == hvac_mode) OPMODETOLOXONE).map Prod.snd with
  | Option.none => ([], [.warning "unsupported hvac_mode"])
  | some t => (["setOperatingMode/" ++ toString t],
               [.debug ("set_hvac_mode fired setOperatingMode/" ++ toString t)])

/-- The SECOND, active `set_hvac_mode`: `AUTO` uses the configured
`_autoMode` code instead of the table value; other modes use
`OPMODETOLOXONE`; an unsupported mode returns with no command and no log
line; nothing here raises. Returns (commands, log entries). -/
def set_hvac_mode (st : ClimateState) (hvac_mode : HVACMode) :
    List String × List LogEntry :=
  let target : Option Int :=
    if hvac_mode == HVACMode.auto then some st.autoMode
    else (findFirst (fun p => p.1 == hvac_mode) OPMODETOLOXONE).map Prod.snd
  match target with
  | Option.none => ([], [])
  | some t => (["setOperatingMode/" ++ toString t], [])

end LoxoneRoomControllerV2

/-- The `\x7b` character. -/
def obrace : Char := Char.ofNat 123

/-- The `\x7d` character. -/
def cbrace : Char := Char.ofNat 125

/-- The backslash character. -/
def bslash : Char := Char.ofNat 92

/-- The double-quote character. -/
def dquote : Char := Char.ofNat 34

/-- The single-quote character. -/
def squote : Char := Char.ofNat 39

/-- Drops leading JSON whitespace. -/
def jsonWs : List Char → List Char
  | c :: cs =>
    if c = ' ' || c = Char.ofNat 9 || c = Char.ofNat 10 || c = Char.ofNat 13 then jsonWs cs
    else c :: cs
  | [] => []

/-- Parses a quoted string body (opening quote already consumed) up to the
closing quote `q`; escape sequences are outside the modelled fragment and
fail. -/
def quotedString (q : Char) (cs : List Char) : Option (String × List Char) :=
  let content := cs.takeWhile (fun c => c ≠ q ∧ c ≠ bslash)
  match cs.dropWhile (fun c => c ≠ q ∧ c ≠ bslash) with
  | c :: rest => if c = q then some (String.mk content, rest) else Option.none
  | [] => Option.none

/-- Parses a JSON number (optional `-`, digits, optional fraction):
integers decode to Python `int`, fractions to `float`, as `json.loads`
does. Exponents are outside the modelled fragment. -/
def jsonNumber (cs : List Char) : Option (PyVal × List Char) :=
  let (neg, cs1) := match cs with | '-' :: r => (true, r) | r => (false, r)
  let ip := cs1.takeWhile Char.isDigit
  let r1 := cs1.dropWhile Char.isDigit
  if ip.isEmpty then Option.none
  else
    match r1 with
    | '.' :: r2 =>
      let fp := r2.takeWhile Char.isDigit
      let r3 := r2.dropWhile Char.isDigit
      if fp.isEmpty then Option.none
      else
        let n : Int := (digitsToNat ip * 10 ^ fp.length + digitsToNat fp : Nat)
        some (.f (mkRat (if neg then -n else n) (10 ^ fp.length)), r3)
    | _ => some (.i (if neg then -(digitsToNat ip : Int) else (digitsToNat ip : Int)), r1)

mutual
/-- Fuel-indexed recursive-descent parser for one JSON value, modelling
`json.loads` on the fragment this code receives (objects, arrays, strings
without escapes, numbers without exponents, `null`/`true`/`false`). -/
def jsonValue : Nat → List Char → Option (PyVal × List Char)
  | 0, _ => Option.none
  | fuel + 1, cs =>
    match jsonWs cs with
    | [] => Option.none
    | c :: rest =>
      if c = dquote then (quotedString dquote rest).map (fun p => (.s p.1, p.2))
      else if c = obrace then
        match jsonWs rest with
        | d :: r2 => if d = cbrace then some (.dict [], r2)
                     else (jsonPairs fuel (d :: r2)).map (fun p => (.dict p.1, p.2))
        | [] => Option.none
      else if c = '[' then
        match jsonWs rest with
        | d :: r2 => if d = ']' then some (.list [], r2)
                     else (jsonItems fuel (d :: r2)).map (fun p => (.list p.1, p.2))
        | [] => Option.none
      else if c = 'n' then
        match rest with | 'u' :: 'l' :: 'l' :: r => some (.none, r) | _ => Option.none
      else if c = 't' then
        match rest with | 'r' :: 'u' :: 'e' :: r => some (.b true, r) | _ => Option.none
      else if c = 'f' then
        match rest with | 'a' :: 'l' :: 's' :: 'e' :: r => some (.b false, r) | _ => Option.none
      else jsonNumber (c :: rest)

/-- One or more comma-separated JSON array items, consuming the closing
bracket. -/
def jsonItems : Nat → List Char → Option (List PyVal × List Char)
  | 0, _ => Option.none
  | fuel + 1, cs =>
    match jsonValue fuel cs with
    | some (v, r) =>
      match jsonWs r with
      | ',' :: r2 => (jsonItems fuel r2).map (fun p => (v :: p.1, p.2))
      | c :: r2 => if c = ']' then some ([v], r2) else Option.none
      | [] => Option.none
    | Option.none => Option.none

/-- One or more `"key": value` JSON object members, consuming the closing
brace. -/
def jsonPairs : Nat → List Char → Option (List (String × PyVal) × List Char)
  | 0, _ => Option.none
  | fuel + 1, cs =>
    match cs with
    | c :: r =>
      if c = dquote then
        match quotedString dquote r with
        | some (k, r1) =>
          match jsonWs r1 with
          | ':' :: r2 =>
            match jsonValue fuel r2 with
            | some (v, r3) =>
              match jsonWs r3 with
              | ',' :: r4 => (jsonPairs fuel (jsonWs r4)).map (fun p => ((k, v) :: p.1, p.2))
              | d :: r4 => if d = cbrace then some ([(k, v)], r4) else Option.none
              | [] => Option.none
            | Option.none => Option.none
          | _ => Option.none
        | Option.none => Option.none
      else Option.none
    | [] => Option.none
end

/-- Model of Python `json.loads` (on the fragment described at
`jsonValue`): parses one value and rejects trailing garbage. -/
def json_loads (t : String) : Option PyVal :=
  match jsonValue (t.length + 1) t.toList with
  | some (v, rest) => if (jsonWs rest).isEmpty then some v else Option.none
  | Option.none => Option.none

/-- Parses one atom of a Python list display: an integer literal or a
single- or double-quoted string, with surrounding whitespace. -/
def evalAtomVal (cs : List Char) : Option (PyVal × List Char) :=
  match jsonWs cs with
  | [] => Option.none
  | c :: r =>
    if c = dquote then (quotedString dquote r).map (fun p => (.s p.1, p.2))
    else if c = squote then (quotedString squote r).map (fun p => (.s p.1, p.2))
    else
      let (neg, cs1) := match c :: r with | '-' :: rr => (true, rr) | rr => (false, rr)
      let ip := cs1.takeWhile Char.isDigit
      if ip.isEmpty then Option.none
      else some (.i (if neg then -(digitsToNat ip : Int) else (digitsToNat ip : Int)),
                 cs1.dropWhile Char.isDigit)

/-- One or more comma-separated atoms of a Python list display, allowing a
trailing comma, consuming the closing bracket. -/
def evalItems : Nat → List Char → Option (List PyVal × List Char)
  | 0, _ => Option.none
  | fuel + 1, cs =>
    match evalAtomVal cs with
    | some (v, r) =>
      match jsonWs r with
      | ',' :: r2 =>
        (match jsonWs r2 with
         | c :: r3 =>
           if c = ']' then some ([v], r3)
           else (evalItems fuel r2).map (fun p => (v :: p.1, p.2))
         | [] => Option.none)
      | c :: r2 => if c = ']' then some ([v], r2) else Option.none
      | [] => Option.none
    | Option.none => Option.none

/-- Parses a Python list display `[a, b, ...]` of atoms. -/
def evalList (cs : List Char) : Option (List PyVal × List Char) :=
  match jsonWs cs with
  | c :: r =>
    if c = '[' then
      match jsonWs r with
      | d :: r2 =>
        if d = ']' then some ([], r2)
        else evalItems (r.length + 1) (d :: r2)
      | [] => Option.none
    else Option.none
  | [] => Option.none

/-- Folds further `+ <list display>` operands onto an accumulated list,
modelling Python list concatenation. -/
def evalConcat : Nat → List PyVal → List Char → Option (List PyVal × List Char)
  | 0, _, _ => Option.none
  | fuel + 1, acc, cs =>
    match jsonWs cs with
    | '+' :: r =>
      match evalList r with
      | some (l, r2) => evalConcat fuel (acc ++ l) r2
      | Option.none => Option.none
    | rest => some (acc, rest)

/-- Model of the Python builtin `eval` on the expression fragment this
analysis exercises: list displays of int/string atoms (single- or
double-quoted, optional trailing comma — both accepted by Python's
grammar but not by JSON) combined with the `+` operator (list
concatenation — an arbitrary-code capability no structured-data parser
has). Programs outside the fragment are modelled as failures; real `eval`
accepts arbitrary Python expressions, including ones with side effects. -/
def pyEvalModel (t : String) : Option PyVal :=
  match evalList t.toList with
  | some (l, r) =>
    match evalConcat (t.length + 1) l r with
    | some (l2, r2) => if (jsonWs r2).isEmpty then some (.list l2) else Option.none
    | Option.none => Option.none
  | Option.none => Option.none

namespace LoxoneRoomControllerV2

/-- `LoxoneRoomControllerV2.is_overridden`: falsy `overrideEntries` is
`False`; a string value is passed to the builtin `eval` (modelled by
`pyEvalModel`; an exception is caught and yields `False`); the result is
`True` iff it is a non-empty list. -/
def is_overridden (st : ClimateState) : Bool :=
  let v := get_state_value st "overrideEntries"
  if !pyTruthy v then false
  else
    match (match v with | .s t => pyEvalModel t | w => some w) with
    | some (.list l) => !l.isEmpty
    | _ => false

/-- Modelled from the spec: §9 of the design notes requires replacing the
dynamic `eval` in `is_overridden` with a safe structured-data parser
(e.g. JSON) that fails closed on any malformed input; this is that
prescribed variant, with `json_loads` as the parser. -/
def is_overridden_safe (st : ClimateState) : Bool :=
  let v := get_state_value st "overrideEntries"
  if !pyTruthy v then false
  else
    match (match v with | .s t => json_loads t | w => some w) with
    | some (.list l) => !l.isEmpty
    | _ => false

end LoxoneRoomControllerV2

namespace LoxoneAcControl

/-- The tuple `(1, "1", True, "true", "True", "on", "ON")` from
`LoxoneAcControl.hvac_mode`. -/
def statusTuple : List PyVal :=
  [.i 1, .s "1", .b true, .s "true", .s "True", .s "on", .s "ON"]

/-- `LoxoneAcControl.hvac_mode`: `AUTO` iff the cached `status` is in
`statusTuple` (Python `in`, i.e. `==` against each member), else `OFF`. -/
def hvac_mode (st : ClimateState) : HVACMode :=
  if pyIn (get_state_value st "status") statusTuple then .auto else .off

/-- The tuple `(1, "1", True, "true")` from `LoxoneAcControl.hvac_action`. -/
def actionTuple : List PyVal := [.i 1, .s "1", .b true, .s "true"]

/-- `LoxoneAcControl.hvac_action`: `HEATING` if the cached `isHeating` is
in `actionTuple`, else `COOLING` if `isCooling` is, else `IDLE`. -/
def hvac_action (st : ClimateState) : HVACAction :=
  if pyIn (get_state_value st "isHeating") actionTuple then .heating
  else if pyIn (get_state_value st "isCooling") actionTuple then .cooling
  else .idle

/-- `LoxoneAcControl.set_temperature`: the target is
`kwargs.get("targetTemperature") or kwargs.get("temperature")` (Python
`or`); `None` emits nothing, otherwise `setTarget/<target>` is emitted. -/
def set_temperature (targetTemperature temperature : PyVal) : List String :=
  let target := if pyTruthy targetTemperature then targetTemperature else temperature
  match target with
  | .none => []
  | t => ["setTarget/" ++ pyStr t]

end LoxoneAcControl

/-- Python `t.strip(c)`: removes every leading and trailing occurrence of
the character `c`. -/
def stripChar (c : Char) (t : String) : String :=
  String.mk (((t.toList.dropWhile (· = c)).reverse.dropWhile (· = c)).reverse)

/-- Python `t.split(c)`: splits at every occurrence of `c` (always at
least one part). -/
def splitOnChar (c : Char) : List Char → List (List Char)
  | [] => [[]]
  | x :: xs =>
    let r := splitOnChar c xs
    if x = c then [] :: r
    else
      match r with
      | h :: rest => (x :: h) :: rest
      | [] => [[x]]

/-- `splitOnChar` on strings. -/
def strSplitOn (c : Char) (t : String) : List String :=
  (splitOnChar c t.toList).map String.mk

/-- Removes every (left-to-right, non-overlapping) occurrence of `pat`,
fuel-indexed; models Python `t.replace(pat, "")`. -/
def removePat (pat : List Char) : Nat → List Char → List Char
  | 0, cs => cs
  | _ + 1, [] => []
  | fuel + 1, x :: xs =>
    if !pat.isEmpty && pat.isPrefixOf (x :: xs) then
      removePat pat fuel ((x :: xs).drop pat.length)
    else x :: removePat pat fuel xs

/-- Python `t.replace(pat, "")`. -/
def strRemoveAll (pat : String) (t : String) : String :=
  String.mk (removePat pat.toList (t.toList.length + 1) t.toList)

/-- Python `t.lower()` (ASCII). -/
def strToLower (t : String) : String :=
  String.mk (t.toList.map Char.toLower)

namespace LoxoneTextStatusSensor

/-- The Loxone-icon → MDI-icon lookup table of
`LoxoneTextStatusSensor._convert_loxone_icon` (`sensor.py`). -/
def icon_mapping : List (String × String) :=
  [("radiator", "mdi:radiator"), ("flame", "mdi:fire"),
   ("snowflake", "mdi:snowflake"), ("thermometer", "mdi:thermometer"),
   ("water", "mdi:water"), ("fan", "mdi:fan"),
   ("power", "mdi:power-plug"), ("light", "mdi:lightbulb"),
   ("window", "mdi:window-open"), ("door", "mdi:door"),
   ("information", "mdi:information"), ("warning", "mdi:alert"),
   ("error", "mdi:alert-circle"), ("success", "mdi:check-circle"),
   ("settings", "mdi:cog")]

/-- `LoxoneTextStatusSensor._convert_loxone_icon` (`sensor.py`): a falsy
icon yields `mdi:text`; a string is reduced to its basename (last `/`
segment, `.svg` removed, lower-cased) and mapped through `icon_mapping`,
defaulting to `mdi:text`; a truthy non-string would raise
`AttributeError` (modelled as `Option.none`, uncaught in the source). -/
def convert_loxone_icon (loxone_icon : PyVal) : Option String :=
  if !pyTruthy loxone_icon then some "mdi:text"
  else
    match loxone_icon with
    | .s t =>
      let name := strToLower (strRemoveAll ".svg" ((strSplitOn '/' t).getLastD ""))
      some (((findFirst (fun p => p.1 == name) icon_mapping).map Prod.snd).getD "mdi:text")
    | _ => Option.none

/-- `LoxoneTextStatusSensor._parse_icon_state` (`sensor.py`): non-string
data yields the defaults (`mdi:text`, no color); a string is stripped of
surrounding double quotes and given to `json.loads` — a decode error is
caught and yields the defaults; a decoded dict supplies `icon` (converted
through `convert_loxone_icon`) and `color`; a decoded non-dict keeps the
defaults. Returns `Option.none` only where the source would raise. -/
def parse_icon_state (data : PyVal) : Option (String × PyVal) :=
  match data with
  | .s t =>
    let clean_data := stripChar dquote t
    match json_loads clean_data with
    | Option.none => some ("mdi:text", .none)
    | some parsed =>
      match parsed with
      | .dict d =>
        let icon := (dictGet d "icon").getD (.s "mdi:text")
        let color := (dictGet d "color").getD .none
        match convert_loxone_icon icon with
        | some ic => some (ic, color)
        | Option.none => Option.none
      | _ => some ("mdi:text", .none)
  | _ => some ("mdi:text", .none)

end LoxoneTextStatusSensor

namespace LoxoneTextStatus

/-- `LoxoneTextStatus.parse_icon_state` (`text_status.py`): a dict
supplies `icon` and `color` verbatim (no MDI remapping); a string
containing `;` is split as `icon;color` (an empty first part keeps the
default icon); everything else — including a JSON-encoded string, which
contains no `;` — yields the defaults (`mdi:text`, no color). Total:
never raises. -/
def parse_icon_state (data : PyVal) : PyVal × PyVal :=
  match data with
  | .dict d => ((dictGet d "icon").getD (.s "mdi:text"), (dictGet d "color").getD .none)
  | .s t =>
    if t.toList.contains ';' then
      let parts := strSplitOn ';' t
      let icon : PyVal :=
        match parts with
        | p0 :: _ => if p0 ≠ "" then .s p0 else .s "mdi:text"
        | [] => .s "mdi:text"
      let color : PyVal :=
        match parts with
        | _ :: p1 :: _ => .s p1
        | _ => .none
      (icon, color)
    else (.s "mdi:text", .none)
  | _ => (.s "mdi:text", .none)

end LoxoneTextStatus

lemma pyEq_int_int (a b : Int) : pyEq (.i a) (.i b) = decide (a = b) := by
  have h0 : pyEq (.i a) (.i b) = (((a : ℚ)) == ((b : ℚ))) := rfl
  rw [h0]
  rcases eq_or_ne a b with rfl | h
  · simp
  · have h' : (a : ℚ) ≠ (b : ℚ) := by exact_mod_cast h
    simp [h, h']

/-- C3: the room controller's projected `hvac_mode` maps the cached
operating-mode code through the fixed `OPMODES` table: `-1 ↦ OFF`,
`0/1/2 ↦ AUTO`, `3 ↦ HEAT_COOL`, `4 ↦ HEAT`, `5 ↦ COOL`, every other
integer code and a missing code map to `OFF`. -/
theorem C3_hvac_mode_table (code : Int) :
    LoxoneRoomControllerV2.hvac_mode (stateOf [("operatingMode", .i code)] 0) =
      (if code = -1 then HVACMode.off
       else if code = 0 ∨ code = 1 ∨ code = 2 then HVACMode.auto
       else if code = 3 then HVACMode.heat_cool
       else if code = 4 then HVACMode.heat
       else if code = 5 then HVACMode.cool
       else HVACMode.off) ∧
    LoxoneRoomControllerV2.hvac_mode (stateOf [] 0) = HVACMode.off := by
  refine ⟨?_, rfl⟩
  by_cases h1 : code = -1
  · subst h1; rfl
  by_cases h2 : code = 0
  · subst h2; rfl
  by_cases h3 : code = 1
  · subst h3; rfl
  by_cases h4 : code = 2
  · subst h4; rfl
  by_cases h5 : code = 3
  · subst h5; rfl
  by_cases h6 : code = 4
  · subst h6; rfl
  by_cases h7 : code = 5
  · subst h7; rfl
  have hg : get_state_value (stateOf [("operatingMode", .i code)] 0) "operatingMode" =
      .i code := rfl
  show opmodesGet (get_state_value (stateOf [("operatingMode", .i code)] 0) "operatingMode") = _
  rw [hg]
  simp [opmodesGet, OPMODES, findFirst, pyEq_int_int,
    Ne.symm h1, Ne.symm h2, Ne.symm h3, Ne.symm h4, Ne.symm h5, Ne.symm h6, Ne.symm h7,
    h1, h2, h3, h4, h5, h6, h7]

/-- C1: room-controller `set_temperature` with a supplied (truthy — see
C10 for the value `0`) temperature while the cached operating mode is `1`
(an AUTO code) emits exactly `setOperatingMode/4` then
`setManualTemperature/<value>`, in that order; while the mode is `4`
(HEAT) it emits exactly `setManualTemperature/<value>`; with no
temperature supplied it emits nothing. -/
theorem C1_set_temperature_commands (v : PyVal) (hv : pyTruthy v = true) :
    (LoxoneRoomControllerV2.set_temperature
        (stateOf [("operatingMode", .i 1)] 0) v .none).1 =
      ["setOperatingMode/4", "setManualTemperature/" ++ pyStr v] ∧
    (LoxoneRoomControllerV2.set_temperature
        (stateOf [("operatingMode", .i 4)] 0) v .none).1 =
      ["setManualTemperature/" ++ pyStr v] ∧
    (LoxoneRoomControllerV2.set_temperature
        (stateOf [("operatingMode", .i 1)] 0) .none .none).1 = [] ∧
    (LoxoneRoomControllerV2.set_temperature
        (stateOf [("operatingMode", .i 4)] 0) .none .none).1 = [] := by
  refine ⟨?_, ?_, rfl, rfl⟩ <;>
    cases v <;>
      simp_all [LoxoneRoomControllerV2.set_temperature, pyTruthy, pyInt,
        get_state_value, stateOf, dictGet, findFirst]

/-- Witness for C1 at the concrete temperature 21.5 in mode 1. -/
theorem C1_witness :
    pyTruthy (.f (mkRat 43 2)) = true ∧
    (LoxoneRoomControllerV2.set_temperature
        (stateOf [("operatingMode", .i 1)] 0) (.f (mkRat 43 2)) .none).1 =
      ["setOperatingMode/4", "setManualTemperature/" ++ pyStr (.f (mkRat 43 2))] :=
  ⟨by decide, (C1_set_temperature_commands (.f (mkRat 43 2)) (by decide)).1⟩

/-- C4: room-controller `target_temperature` returns the numeric parse of
the `tempTarget` channel whenever it parses (in particular 21.5 beats a
manualTemperature of 19.0); otherwise the numeric parse of
`manualTemperature` when that parses; otherwise it is absent — and the
function is total (never raises). -/
theorem C4_target_temperature_fallback (t m : PyVal) :
    (∀ q, pyFloat t = some q →
      LoxoneRoomControllerV2.target_temperature
        (stateOf [("tempTarget", t), ("manualTemperature", m)] 0) = some q) ∧
    (pyFloat t = Option.none →
      LoxoneRoomControllerV2.target_temperature
        (stateOf [("tempTarget", t), ("manualTemperature", m)] 0) = pyFloat m) ∧
    LoxoneRoomControllerV2.target_temperature
      (stateOf [("tempTarget", .f (mkRat 43 2)), ("manualTemperature", .f (mkRat 19 1))] 0) =
        some (mkRat 43 2) := by
  refine ⟨?_, ?_, rfl⟩
  · intro q hq
    cases t <;>
      simp_all [LoxoneRoomControllerV2.target_temperature, pyFloat,
        get_state_value, stateOf, dictGet, findFirst]
  · intro hq
    cases t <;> cases m <;>
      simp_all [LoxoneRoomControllerV2.target_temperature, pyFloat,
        get_state_value, stateOf, dictGet, findFirst]

/-- Witness for C4 with tempTarget 21.5 and manualTemperature 19.0. -/
theorem C4_witness :
    LoxoneRoomControllerV2.target_temperature
      (stateOf [("tempTarget", .f (mkRat 43 2)), ("manualTemperature", .f (mkRat 19 1))] 0) =
        some (mkRat 43 2) :=
  (C4_target_temperature_fallback (.f (mkRat 43 2)) (.f (mkRat 19 1))).1 (mkRat 43 2) rfl

/-- C2 counterexample: a device caching value `5` on its one relevant
channel receives an event re-sending the identical value `5`; the claim
says this triggers zero re-publish notifications, but `event_handler`
marks an update for every relevant key without comparing values, so it
schedules a notification (second component `true`) while the cache is
unchanged. -/
theorem C2_counterexample :
    event_handler (stateOf [("tempActual", .i 5)] 0) (.dict [("u-tempActual", .i 5)]) =
      ([("u-tempActual", .i 5)], true) := rfl

/-- C2 (amended): an event whose key set is disjoint from the device's
registered channel identifiers triggers no notification and leaves the
cache unchanged; but an event containing ANY relevant channel schedules a
notification, whether or not the delivered value differs from the cached
one — the handler performs no changed-value comparison. -/
theorem C2_event_handler_dispatch (st : ClimateState) (entries : List (String × PyVal)) :
    ((∀ u ∈ st.stateAttribUuids.map Prod.snd, dictGet entries u = Option.none) →
      event_handler st (.dict entries) = (st.stateAttribValues, false)) ∧
    ((∃ u ∈ st.stateAttribUuids.map Prod.snd, (dictGet entries u).isSome) →
      (event_handler st (.dict entries)).2 = true) := by
  constructor
  · intro h
    by_cases hne : st.stateAttribUuids.isEmpty
    · simp [event_handler, hne]
    · have hfil : ((st.stateAttribUuids.map Prod.snd).dedup).filter
          (fun u => (dictGet entries u).isSome) = [] := by
        apply List.filter_eq_nil_iff.mpr
        intro u hu
        have hu' := List.mem_dedup.mp hu
        simp [h u hu']
      simp [event_handler, hne, hfil]
  · rintro ⟨u, hu, hsome⟩
    by_cases hne : st.stateAttribUuids.isEmpty
    · rw [List.isEmpty_iff] at hne
      simp [hne] at hu
    · have hmem : u ∈ ((st.stateAttribUuids.map Prod.snd).dedup).filter
          (fun u => (dictGet entries u).isSome) :=
        List.mem_filter.mpr ⟨List.mem_dedup.mpr hu, hsome⟩
      obtain ⟨a, l', he⟩ := List.exists_cons_of_ne_nil (List.ne_nil_of_mem hmem)
      simp [event_handler, hne, he]

/-- Witness for C2 at a device with one registered channel and an event
carrying that channel. -/
theorem C2_witness :
    (event_handler (stateOf [("tempActual", .i 5)] 0) (.dict [("u-tempActual", .i 7)])).2 = true :=
  (C2_event_handler_dispatch (stateOf [("tempActual", .i 5)] 0) [("u-tempActual", .i 7)]).2
    ⟨"u-tempActual", by decide, by decide⟩

/-- C5: the source's `is_overridden` hands the cached `overrideEntries`
string to the builtin `eval`, not to a safe structured-data parser. On the
input `"[1]+[1]"` — a Python expression, not a data literal — `eval`
computes the list `[1, 1]` and the property returns `True`, while the
spec-prescribed safe parser (`is_overridden_safe`, §9) fails closed and
returns `False`; on a data-literal list and on malformed input the two
agree (non-empty list → `True`, failure → `False`, never raising). -/
theorem C5_is_overridden_eval_divergence :
    LoxoneRoomControllerV2.is_overridden
      (stateOf [("overrideEntries", .s "[1]+[1]")] 0) = true ∧
    LoxoneRoomControllerV2.is_overridden_safe
      (stateOf [("overrideEntries", .s "[1]+[1]")] 0) = false ∧
    LoxoneRoomControllerV2.is_overridden
      (stateOf [("overrideEntries", .s "[\"a\"]")] 0) = true ∧
    LoxoneRoomControllerV2.is_overridden
      (stateOf [("overrideEntries", .s "not a list")] 0) = false ∧
    LoxoneRoomControllerV2.is_overridden
      (stateOf [("overrideEntries", .s "[]")] 0) = false :=
  ⟨rfl, rfl, rfl, rfl, rfl⟩

/-- C6 counterexample: the claim says the semicolon form `"radiator;blue"`
decodes to the `radiator`-mapped generic icon `mdi:radiator` with color
`blue`; but the `sensor.py` decoder (JSON-only) falls back to the default
`mdi:text` with no color, and the `text_status.py` decoder returns the RAW
icon name `radiator`, never remapping it to `mdi:radiator`. -/
theorem C6_counterexample :
    LoxoneTextStatusSensor.parse_icon_state (.s "radiator;blue") ≠
      some ("mdi:radiator", .s "blue") ∧
    LoxoneTextStatus.parse_icon_state (.s "radiator;blue") ≠
      ((.s "mdi:radiator" : PyVal), (.s "blue" : PyVal)) := by
  constructor
  · rw [show LoxoneTextStatusSensor.parse_icon_state (.s "radiator;blue") =
        some ("mdi:text", .none) from rfl]
    simp
  · rw [show LoxoneTextStatus.parse_icon_state (.s "radiator;blue") =
        ((.s "radiator" : PyVal), (.s "blue" : PyVal)) from rfl]
    simp

/-- C6 (amended): the two decoders each support only one shape. The
`sensor.py` decoder handles the JSON shape —
`'\x7b"icon":"flame","color":"red"\x7d'` maps through the icon table to
`mdi:fire` with color `red` — and yields the default `mdi:text` with no
color on everything else, including the semicolon form and malformed
JSON. The `text_status.py` decoder handles the semicolon shape —
`"radiator;blue"` yields the raw icon name `radiator` (unmapped) with
color `blue` — and yields the default on everything else, including a
JSON-encoded string. -/
theorem C6_icon_decoders :
    LoxoneTextStatusSensor.parse_icon_state
      (.s "\x7b\"icon\":\"flame\",\"color\":\"red\"\x7d") = some ("mdi:fire", .s "red") ∧
    LoxoneTextStatusSensor.parse_icon_state (.s "radiator;blue") =
      some ("mdi:text", .none) ∧
    LoxoneTextStatusSensor.parse_icon_state (.s "\x7b\"icon\":") =
      some ("mdi:text", .none) ∧
    LoxoneTextStatus.parse_icon_state (.s "radiator;blue") =
      ((.s "radiator" : PyVal), (.s "blue" : PyVal)) ∧
    LoxoneTextStatus.parse_icon_state
      (.s "\x7b\"icon\":\"flame\",\"color\":\"red\"\x7d") = ((.s "mdi:text" : PyVal), .none) :=
  ⟨rfl, rfl, rfl, rfl, rfl⟩

/-- C7: AcControl `hvac_action` returns HEATING whenever the cached
`isHeating` flag is one of the recognized truthy forms
`(1, "1", True, "true")`, regardless of `isCooling` — the deliberate
heating-over-cooling tie-break; COOLING when `isHeating` is not
recognized truthy and `isCooling` is; IDLE when neither is. -/
theorem C7_hvac_action_priority (h c : PyVal)
    (hh : pyIn h LoxoneAcControl.actionTuple = true) :
    LoxoneAcControl.hvac_action (stateOf [("isHeating", h), ("isCooling", c)] 0) =
      HVACAction.heating ∧
    LoxoneAcControl.hvac_action
      (stateOf [("isHeating", .b false), ("isCooling", .b true)] 0) = HVACAction.cooling ∧
    LoxoneAcControl.hvac_action
      (stateOf [("isHeating", .b false), ("isCooling", .b false)] 0) = HVACAction.idle := by
  refine ⟨?_, rfl, rfl⟩
  have hg : get_state_value (stateOf [("isHeating", h), ("isCooling", c)] 0) "isHeating" =
      h := rfl
  unfold LoxoneAcControl.hvac_action
  rw [hg, hh]
  simp

/-- Witness for C7 with both flags simultaneously true. -/
theorem C7_witness :
    LoxoneAcControl.hvac_action
      (stateOf [("isHeating", .b true), ("isCooling", .b true)] 0) = HVACAction.heating :=
  (C7_hvac_action_priority (.b true) (.b true) (by decide)).1

/-- C8 counterexample: the claim says the `status` comparison is
case-insensitive, so `"On"` should map to AUTO; the code compares against
the literal tuple `(1, "1", True, "true", "True", "on", "ON")`, so
`"On"` (and `"TRUE"`) map to OFF. -/
theorem C8_counterexample :
    LoxoneAcControl.hvac_mode (stateOf [("status", .s "On")] 0) ≠ HVACMode.auto := by
  rw [show LoxoneAcControl.hvac_mode (stateOf [("status", .s "On")] 0) =
      HVACMode.off from rfl]
  decide

/-- C8 (amended): AcControl `hvac_mode` is AUTO exactly for a cached
`status` equal (Python `==`, exact string casing) to a member of the
tuple `(1, "1", True, "true", "True", "on", "ON")`; every other value —
including the differently-cased `"On"` and `"TRUE"` — and a missing
status map to OFF. -/
theorem C8_status_truthy_set :
    LoxoneAcControl.hvac_mode (stateOf [("status", .i 1)] 0) = HVACMode.auto ∧
    LoxoneAcControl.hvac_mode (stateOf [("status", .s "1")] 0) = HVACMode.auto ∧
    LoxoneAcControl.hvac_mode (stateOf [("status", .b true)] 0) = HVACMode.auto ∧
    LoxoneAcControl.hvac_mode (stateOf [("status", .s "true")] 0) = HVACMode.auto ∧
    LoxoneAcControl.hvac_mode (stateOf [("status", .s "True")] 0) = HVACMode.auto ∧
    LoxoneAcControl.hvac_mode (stateOf [("status", .s "on")] 0) = HVACMode.auto ∧
    LoxoneAcControl.hvac_mode (stateOf [("status", .s "ON")] 0) = HVACMode.auto ∧
    LoxoneAcControl.hvac_mode (stateOf [("status", .s "On")] 0) = HVACMode.off ∧
    LoxoneAcControl.hvac_mode (stateOf [("status", .s "TRUE")] 0) = HVACMode.off ∧
    LoxoneAcControl.hvac_mode (stateOf [("status", .s "off")] 0) = HVACMode.off ∧
    LoxoneAcControl.hvac_mode (stateOf [("status", .i 0)] 0) = HVACMode.off ∧
    LoxoneAcControl.hvac_mode (stateOf [] 0) = HVACMode.off :=
  ⟨rfl, rfl, rfl, rfl, rfl, rfl, rfl, rfl, rfl, rfl, rfl, rfl⟩

/-- C9 counterexample: the claim says an unsupported mode is logged; in
the ACTIVE (second) `set_hvac_mode` definition an unsupported mode
returns silently — no command AND no log entry (the logging version is
the shadowed first definition). -/
theorem C9_counterexample :
    LoxoneRoomControllerV2.set_hvac_mode (stateOf [] 0) .dry = ([], []) ∧
    LoxoneRoomControllerV2.set_hvac_mode_shadowed (stateOf [] 0) .dry =
      ([], [.warning "unsupported hvac_mode"]) :=
  ⟨rfl, rfl⟩

/-- C9 (amended): the active `set_hvac_mode` emits
`setOperatingMode/<_autoMode>` for AUTO — the configured auto-mode code
(constrained to 0/1/2 by the platform schema) rather than the table's
value 0 — and `setOperatingMode/<table code>` for the other supported
modes; an unsupported mode silently produces no outbound command and no
log entry, and nothing raises. -/
theorem C9_set_hvac_mode_auto_override (st : ClimateState)
    (h0 : 0 ≤ st.autoMode) (h2 : st.autoMode ≤ 2) :
    LoxoneRoomControllerV2.set_hvac_mode st .auto =
      (["setOperatingMode/" ++ toString st.autoMode], []) ∧
    LoxoneRoomControllerV2.set_hvac_mode st .heat_cool = (["setOperatingMode/3"], []) ∧
    LoxoneRoomControllerV2.set_hvac_mode st .heat = (["setOperatingMode/4"], []) ∧
    LoxoneRoomControllerV2.set_hvac_mode st .cool = (["setOperatingMode/5"], []) ∧
    LoxoneRoomControllerV2.set_hvac_mode st .off = (["setOperatingMode/-1"], []) ∧
    LoxoneRoomControllerV2.set_hvac_mode st .dry = ([], []) ∧
    LoxoneRoomControllerV2.set_hvac_mode st .fan_only = ([], []) :=
  ⟨rfl, rfl, rfl, rfl, rfl, rfl, rfl⟩

/-- Witness for C9 with the auto-mode code configured to 2. -/
theorem C9_witness :
    (0 : Int) ≤ 2 ∧
    LoxoneRoomControllerV2.set_hvac_mode (stateOf [] 2) .auto =
      (["setOperatingMode/2"], []) :=
  ⟨by decide, (C9_set_hvac_mode_auto_override (stateOf [] 2) (by decide) (by decide)).1⟩

/-- C10 counterexample: the claim says both controllers treat the numeric
temperature 0 as missing and emit nothing; the room controller does, but
AcControl places `temperature` as the SECOND operand of the `or`-chain
(`kwargs.get("targetTemperature") or kwargs.get("temperature")`), and
Python `or` returns the second operand whenever the first is falsy — so
`temperature=0` survives as `0` (not `None`) and `setTarget/0` is
emitted. -/
theorem C10_counterexample :
    LoxoneAcControl.set_temperature .none (.i 0) = ["setTarget/0"] := rfl

/-- C10 (amended): with `temperature = 0` the ROOM controller emits
nothing (0 is falsy, so the or-chain yields the missing `target_temp`,
i.e. `None`), and likewise AcControl with only `targetTemperature = 0`;
but AcControl with `temperature = 0` (the second `or` operand) emits
`setTarget/0` (or `setTarget/0.0` for the float 0). -/
theorem C10_zero_temperature :
    (LoxoneRoomControllerV2.set_temperature
        (stateOf [("operatingMode", .i 1)] 0) (.i 0) .none).1 = [] ∧
    (LoxoneRoomControllerV2.set_temperature
        (stateOf [("operatingMode", .i 1)] 0) (.f (mkRat 0 1)) .none).1 = [] ∧
    LoxoneAcControl.set_temperature (.i 0) .none = [] ∧
    LoxoneAcControl.set_temperature .none (.i 0) = ["setTarget/0"] ∧
    LoxoneAcControl.set_temperature .none (.f (mkRat 0 1)) = ["setTarget/0.0"] :=
  ⟨rfl, rfl, rfl, rfl, rfl⟩
